import Mathlib

/-!
Verification of the ngx-restful library: a shallow embedding of its two
classes (`BaseService`, the HTTP verb wrapper, and `RestService`, the REST
resource abstraction) together with theorems settling the specification
claims about URL construction, default options, error routing and
statelessness.

Each public method of the TypeScript source is embedded as a pure Lean
function from the service instance, the call arguments and the transport
answer to a `CallResult`: the single HTTP request the method issues, the
outcome delivered to the subscriber, and the (unchanged) instance state.
JavaScript `null`/`undefined` arguments and optional parameters are
modelled with `Option`; the JavaScript truthiness test `error.message ||
error` is modelled on string messages, where a string is truthy exactly
when it is non-empty.
-/

set_option autoImplicit false

namespace NgxRestful

/-- HTTP verbs used by the library. -/
inductive Method where
  | GET
  | POST
  | PUT
  | DELETE
deriving DecidableEq, Repr

/-- The per-call configuration bag (`options: Object`).  The library passes
it through verbatim; the only structure it ever builds itself is a
`headers` entry, so we model the bag as header and params assoc lists. -/
structure HttpOptions where
  headers : List (String × String)
  params : List (String × String)
deriving DecidableEq, Repr

/-- The empty options object `{}`. -/
def emptyOptions : HttpOptions := HttpOptions.mk [] []

/-- The literal value of the private `headers` field of `RestService`:
`{'Content-Type': 'application/json'}`. -/
def contentTypeJson : List (String × String) := [("Content-Type", "application/json")]

/-- A transport-level error value (`error: any`).  Its `message` field may
be absent (`none`, i.e. `undefined`), and `payload` stands for whatever
else the error object carries, so distinct raw errors stay distinct. -/
structure ErrVal where
  message : Option String
  payload : String
deriving DecidableEq, Repr

/-- The value signalled on the failure channel: either a plain message
string or a raw error object, as produced by `throwError(error.message ||
error)`. -/
abbrev FailVal := Sum String ErrVal

/-- The transport's answer to a request: the underlying `HttpClient`
either responds with a value or errors. -/
inductive TransportResult (ρ : Type) where
  | ok (v : ρ)
  | err (e : ErrVal)
deriving DecidableEq, Repr

/-- What the subscriber of the returned observable sees: one success value
or one failure. -/
inductive Outcome (ρ : Type) where
  | ok (v : ρ)
  | fail (f : FailVal)
deriving DecidableEq, Repr

/-- The single HTTP request a method issues: verb, URL, optional body and
the options bag handed to the transport. -/
structure Request (β : Type) where
  method : Method
  url : String
  body : Option β
  options : HttpOptions
deriving DecidableEq, Repr

/-- The observable effect of one method call: the request sent, the
outcome delivered, and the service state after the call. -/
structure CallResult (σ β ρ : Type) where
  request : Request β
  outcome : Outcome ρ
  finalState : σ
deriving Repr

/-- Embeds `.pipe(map((response) => response), catchError(handler))`: the
success mapping is the identity and any transport error is routed through
the handler onto the failure channel. -/
def pipeMapCatch {ρ : Type} (handler : ErrVal → FailVal) : TransportResult ρ → Outcome ρ
  | TransportResult.ok v => Outcome.ok v
  | TransportResult.err e => Outcome.fail (handler e)

/-- The state of a `BaseService` instance: the injected `HttpClient`
reference (an opaque handle) and the instance's `handleError` method
(overridable in subclasses, hence a field of the dispatch state). -/
structure BaseService where
  http : Nat
  handleError : ErrVal → FailVal

/-- The default `BaseService.handleError`: `throwError(error.message ||
error)`.  By JavaScript truthiness, a present non-empty message string is
re-surfaced; an absent or empty message yields the raw error object. -/
def defaultHandleError (error : ErrVal) : FailVal :=
  match error.message with
  | some msg => if msg = "" then Sum.inr error else Sum.inl msg
  | none => Sum.inr error

/-- `BaseService.get(path, options = {})`. -/
def BaseService.get {ρ : Type} (s : BaseService) (path : String)
    (options : Option HttpOptions) (answer : TransportResult ρ) :
    CallResult BaseService Unit ρ :=
  let opts := match options with
    | some o => o
    | none => emptyOptions
  CallResult.mk (Request.mk Method.GET path none opts)
    (pipeMapCatch s.handleError answer) s

/-- `BaseService.post(path, body, options = {})`. -/
def BaseService.post {β ρ : Type} (s : BaseService) (path : String) (body : β)
    (options : Option HttpOptions) (answer : TransportResult ρ) :
    CallResult BaseService β ρ :=
  let opts := match options with
    | some o => o
    | none => emptyOptions
  CallResult.mk (Request.mk Method.POST path (some body) opts)
    (pipeMapCatch s.handleError answer) s

/-- `BaseService.put(path, body, options = {})`. -/
def BaseService.put {β ρ : Type} (s : BaseService) (path : String) (body : β)
    (options : Option HttpOptions) (answer : TransportResult ρ) :
    CallResult BaseService β ρ :=
  let opts := match options with
    | some o => o
    | none => emptyOptions
  CallResult.mk (Request.mk Method.PUT path (some body) opts)
    (pipeMapCatch s.handleError answer) s

/-- `BaseService.delete(path, options = {})`. -/
def BaseService.delete {ρ : Type} (s : BaseService) (path : String)
    (options : Option HttpOptions) (answer : TransportResult ρ) :
    CallResult BaseService Unit ρ :=
  let opts := match options with
    | some o => o
    | none => emptyOptions
  CallResult.mk (Request.mk Method.DELETE path none opts)
    (pipeMapCatch s.handleError answer) s

/-- A resource model value of generic type `T`; `model['id']` may be
`undefined`, hence `Option`, and `payload` stands for the remaining
fields. -/
structure Model (α : Type) where
  id : Option Int
  payload : α
deriving DecidableEq, Repr

/-- The state of a `RestService` instance: the inherited base state, the
string the subclass's abstract `getBaseUrlPath()` returns, and the private
`headers` field. -/
structure RestService extends BaseService where
  baseUrlPath : String
  headers : List (String × String)

/-- Instantiating a concrete subclass of `RestService`: the constructor
stores the injected `HttpClient` and the field initializer sets the
private `headers` field to `{'Content-Type': 'application/json'}`; the
subclass supplies `handleError` (inherited by default) and
`getBaseUrlPath`. -/
def mkRestService (http : Nat) (handler : ErrVal → FailVal) (basePath : String) :
    RestService :=
  RestService.mk (BaseService.mk http handler) basePath contentTypeJson

/-- `RestService.query(options = {}, path = null)`: GET against the
explicit path when non-null, else `getBaseUrlPath()`. -/
def RestService.query {ρ : Type} (s : RestService) (options : Option HttpOptions)
    (path : Option String) (answer : TransportResult ρ) :
    CallResult RestService Unit ρ :=
  let opts := match options with
    | some o => o
    | none => emptyOptions
  let finalPath := match path with
    | some p => p
    | none => s.baseUrlPath
  CallResult.mk (Request.mk Method.GET finalPath none opts)
    (pipeMapCatch s.handleError answer) s

/-- `RestService.getAll(path = null)`: `return this.query({}, path)`. -/
def RestService.getAll {ρ : Type} (s : RestService) (path : Option String)
    (answer : TransportResult ρ) : CallResult RestService Unit ρ :=
  s.query (some emptyOptions) path answer

/-- `RestService.getOne(id, options = {}, path = null)`: GET against
`finalPath + (id != null ? '/' + id : '')`. -/
def RestService.getOne {ρ : Type} (s : RestService) (id : Option Int)
    (options : Option HttpOptions) (path : Option String)
    (answer : TransportResult ρ) : CallResult RestService Unit ρ :=
  let opts := match options with
    | some o => o
    | none => emptyOptions
  let finalPath := match path with
    | some p => p
    | none => s.baseUrlPath
  let url := finalPath ++ (match id with
    | some i => "/" ++ toString i
    | none => "")
  CallResult.mk (Request.mk Method.GET url none opts)
    (pipeMapCatch s.handleError answer) s

/-- `RestService.createOne(model, options = {headers: this.headers},
path = null)`: POST of the model against the final path. -/
def RestService.createOne {α ρ : Type} (s : RestService) (model : Model α)
    (options : Option HttpOptions) (path : Option String)
    (answer : TransportResult ρ) : CallResult RestService (Model α) ρ :=
  let opts := match options with
    | some o => o
    | none => HttpOptions.mk s.headers []
  let finalPath := match path with
    | some p => p
    | none => s.baseUrlPath
  CallResult.mk (Request.mk Method.POST finalPath (some model) opts)
    (pipeMapCatch s.handleError answer) s

/-- `RestService.updateOne(model, options = {headers: this.headers},
path = null)`: PUT of the model against `finalPath + (model['id'] != null
? '/' + model['id'] : '')`. -/
def RestService.updateOne {α ρ : Type} (s : RestService) (model : Model α)
    (options : Option HttpOptions) (path : Option String)
    (answer : TransportResult ρ) : CallResult RestService (Model α) ρ :=
  let opts := match options with
    | some o => o
    | none => HttpOptions.mk s.headers []
  let finalPath := match path with
    | some p => p
    | none => s.baseUrlPath
  let url := finalPath ++ (match model.id with
    | some i => "/" ++ toString i
    | none => "")
  CallResult.mk (Request.mk Method.PUT url (some model) opts)
    (pipeMapCatch s.handleError answer) s

/-- `RestService.deleteOne(id, options = {headers: this.headers},
path = null)`: DELETE against `finalPath + (id != null ? '/' + id :
'')`. -/
def RestService.deleteOne {ρ : Type} (s : RestService) (id : Option Int)
    (options : Option HttpOptions) (path : Option String)
    (answer : TransportResult ρ) : CallResult RestService Unit ρ :=
  let opts := match options with
    | some o => o
    | none => HttpOptions.mk s.headers []
  let finalPath := match path with
    | some p => p
    | none => s.baseUrlPath
  let url := finalPath ++ (match id with
    | some i => "/" ++ toString i
    | none => "")
  CallResult.mk (Request.mk Method.DELETE url none opts)
    (pipeMapCatch s.handleError answer) s

/-- The spec's URL construction rule, stated from its words:
`effectivePath = explicitPath ?? basePath()`. -/
def effectivePath (s : RestService) (path : Option String) : String :=
  match path with
  | some p => p
  | none => s.baseUrlPath

/-- The spec's id-suffix rule, stated from its words: append `'/' + id`
only when the id is defined. -/
def idSuffix : Option Int → String
  | some i => "/" ++ toString i
  | none => ""

/-- C1: every resource-service operation taking an optional explicit path
(query, getAll, getOne, createOne, updateOne, deleteOne) sends its request
to the explicit path when one is supplied, and otherwise to the abstract
base path; id-suffixed operations merely concatenate the suffix, and no
URL-encoding or validation touches either part: the URL is the raw
effective path (plus the raw suffix) verbatim. -/
theorem effective_path_rule {α ρ : Type} (s : RestService)
    (o : Option HttpOptions) (p : Option String) (i : Option Int)
    (m : Model α) (a : TransportResult ρ) :
    (s.query o p a).request.url = effectivePath s p ∧
    (s.getAll p a).request.url = effectivePath s p ∧
    (s.getOne i o p a).request.url = effectivePath s p ++ idSuffix i ∧
    (s.createOne m o p a).request.url = effectivePath s p ∧
    (s.updateOne m o p a).request.url = effectivePath s p ++ idSuffix m.id ∧
    (s.deleteOne i o p a).request.url = effectivePath s p ++ idSuffix i := by
  refine ⟨rfl, rfl, ?_, rfl, ?_, ?_⟩ <;>
    cases p <;> cases o <;>
      simp [RestService.getOne, RestService.updateOne, RestService.deleteOne,
        effectivePath, idSuffix]

/-- C2: for a defined id `i`, `getOne(i)` issues a GET and `deleteOne(i)`
a DELETE to `effectivePath + '/' + i`; for a null/undefined id both
operations address the bare effective path (and still issue their request,
rather than failing). -/
theorem getOne_deleteOne_id_urls {ρ : Type} (s : RestService) (i : Int)
    (o : Option HttpOptions) (p : Option String) (a : TransportResult ρ) :
    (s.getOne (some i) o p a).request.method = Method.GET ∧
    (s.getOne (some i) o p a).request.url = effectivePath s p ++ "/" ++ toString i ∧
    (s.getOne none o p a).request.method = Method.GET ∧
    (s.getOne none o p a).request.url = effectivePath s p ∧
    (s.deleteOne (some i) o p a).request.method = Method.DELETE ∧
    (s.deleteOne (some i) o p a).request.url = effectivePath s p ++ "/" ++ toString i ∧
    (s.deleteOne none o p a).request.method = Method.DELETE ∧
    (s.deleteOne none o p a).request.url = effectivePath s p := by
  refine ⟨rfl, ?_, rfl, ?_, rfl, ?_, rfl, ?_⟩ <;>
    cases p <;> cases o <;>
      simp [RestService.getOne, RestService.deleteOne, effectivePath,
        String.append_assoc]

/-- C3: `updateOne(m)` issues a PUT to `effectivePath + '/' + m.id` when
`m.id` is defined and to the bare effective path when it is undefined; in
particular, a model with id 7 and no explicit path is sent to
`basePath() + '/7'`. -/
theorem updateOne_url_rule {α ρ : Type} (s : RestService) (m : Model α)
    (x : α) (i : Int) (o : Option HttpOptions) (p : Option String)
    (a : TransportResult ρ) :
    (s.updateOne m o p a).request.method = Method.PUT ∧
    (s.updateOne (Model.mk (some i) x) o p a).request.url
      = effectivePath s p ++ "/" ++ toString i ∧
    (s.updateOne (Model.mk none x) o p a).request.url = effectivePath s p ∧
    (s.updateOne (Model.mk (some 7) x) o none a).request.url
      = s.baseUrlPath ++ "/7" := by
  refine ⟨rfl, ?_, ?_, ?_⟩ <;>
    cases p <;> cases o <;>
      simp [RestService.updateOne, effectivePath, String.append_assoc] <;>
        congr 1

/-- C6: `getAll(p)` is extensionally equal to `query({}, p)` — the very
same `CallResult`, hence the same single GET request against the effective
path with empty options, no body, and the same outcome. -/
theorem getAll_is_query {ρ : Type} (s : RestService) (p : Option String)
    (a : TransportResult ρ) :
    s.getAll p a = s.query (some emptyOptions) p a ∧
    (s.getAll p a).request
      = Request.mk Method.GET (effectivePath s p) none emptyOptions ∧
    (s.getAll p a).outcome = (s.query (some emptyOptions) p a).outcome := by
  refine ⟨rfl, ?_, rfl⟩
  cases p <;> rfl

/-- C4 counterexample: the claim says the failure value is `e.message`
whenever the message field is present; but for a present-yet-empty message
the code `throwError(error.message || error)` falls through to the raw
error, because the empty string is falsy in JavaScript. -/
theorem defaultHandleError_empty_message_counterexample :
    (ErrVal.mk (some "") "status 500").message = some "" ∧
    defaultHandleError (ErrVal.mk (some "") "status 500") ≠ Sum.inl "" ∧
    defaultHandleError (ErrVal.mk (some "") "status 500")
      = Sum.inr (ErrVal.mk (some "") "status 500") := by
  refine ⟨rfl, ?_, rfl⟩
  decide

/-- C4 (amended): the default `handleError` always yields a failing
outcome (never a success, with no recovery or retry): the failure value is
`e.message` when the message field is present and truthy (a non-empty
string), and otherwise — message absent or empty — the raw error value `e`
itself. -/
theorem defaultHandleError_spec {ρ : Type} (e : ErrVal) :
    (pipeMapCatch (ρ := ρ) defaultHandleError (TransportResult.err e)
      = Outcome.fail (defaultHandleError e)) ∧
    (∀ v : ρ, pipeMapCatch defaultHandleError (TransportResult.err e)
      ≠ Outcome.ok v) ∧
    (∀ msg : String, e.message = some msg → msg ≠ "" →
      defaultHandleError e = Sum.inl msg) ∧
    (e.message = none → defaultHandleError e = Sum.inr e) ∧
    (e.message = some "" → defaultHandleError e = Sum.inr e) := by
  refine ⟨rfl, ?_, ?_, ?_, ?_⟩
  · intro v hv
    cases hv
  · intro msg hm hne
    simp [defaultHandleError, hm, hne]
  · intro hm
    simp [defaultHandleError, hm]
  · intro hm
    simp [defaultHandleError, hm]

/-- C4 witness: the amended rule evaluated at a concrete error carrying
the non-empty message "request failed". -/
theorem defaultHandleError_spec_witness :
    defaultHandleError (ErrVal.mk (some "request failed") "status 500")
      = Sum.inl "request failed" :=
  (defaultHandleError_spec (ρ := Unit)
    (ErrVal.mk (some "request failed") "status 500")).2.2.1
    "request failed" rfl (by decide)

/-- C5: with no options argument supplied, createOne, updateOne and
deleteOne default the options to `{headers: {'Content-Type':
'application/json'}}` (and createOne posts the given model as body),
while get, query, getAll and getOne default to the empty options object
with no such header. -/
theorem default_options_headers {α ρ : Type} (http : Nat)
    (handler : ErrVal → FailVal) (bp : String) (m : Model α) (u : String)
    (i : Option Int) (p : Option String) (a : TransportResult ρ) :
    ((mkRestService http handler bp).createOne m none p a).request.options
      = HttpOptions.mk [("Content-Type", "application/json")] [] ∧
    ((mkRestService http handler bp).createOne m none p a).request.body = some m ∧
    ((mkRestService http handler bp).updateOne m none p a).request.options
      = HttpOptions.mk [("Content-Type", "application/json")] [] ∧
    ((mkRestService http handler bp).deleteOne i none p a).request.options
      = HttpOptions.mk [("Content-Type", "application/json")] [] ∧
    ((mkRestService http handler bp).toBaseService.get u none a).request.options
      = emptyOptions ∧
    ((mkRestService http handler bp).query none p a).request.options
      = emptyOptions ∧
    ((mkRestService http handler bp).getAll p a).request.options
      = emptyOptions ∧
    ((mkRestService http handler bp).getOne i none p a).request.options
      = emptyOptions := by
  refine ⟨?_, rfl, ?_, ?_, rfl, rfl, rfl, rfl⟩ <;> cases p <;> rfl

/-- C7: every failure of every base verb and every resource operation is
routed through the `handleError` hook of the instance the operation was
invoked on; instantiating two services with different handlers, each
service's callers observe the failure value its own handler produces, the
other instance's handler playing no part. -/
theorem failures_route_through_handleError {α β ρ : Type} (b : BaseService)
    (s : RestService) (u : String) (body : β) (m : Model α)
    (o : Option HttpOptions) (i : Option Int) (p : Option String)
    (e : ErrVal) (n1 n2 : Nat) (h1 h2 : ErrVal → FailVal) (bp1 bp2 : String) :
    (b.get u o (TransportResult.err e) : CallResult BaseService Unit ρ).outcome
      = Outcome.fail (b.handleError e) ∧
    (b.post u body o (TransportResult.err e) : CallResult BaseService β ρ).outcome
      = Outcome.fail (b.handleError e) ∧
    (b.put u body o (TransportResult.err e) : CallResult BaseService β ρ).outcome
      = Outcome.fail (b.handleError e) ∧
    (b.delete u o (TransportResult.err e) : CallResult BaseService Unit ρ).outcome
      = Outcome.fail (b.handleError e) ∧
    (s.query o p (TransportResult.err e) : CallResult RestService Unit ρ).outcome
      = Outcome.fail (s.handleError e) ∧
    (s.getAll p (TransportResult.err e) : CallResult RestService Unit ρ).outcome
      = Outcome.fail (s.handleError e) ∧
    (s.getOne i o p (TransportResult.err e) : CallResult RestService Unit ρ).outcome
      = Outcome.fail (s.handleError e) ∧
    (s.createOne m o p (TransportResult.err e) : CallResult RestService (Model α) ρ).outcome
      = Outcome.fail (s.handleError e) ∧
    (s.updateOne m o p (TransportResult.err e) : CallResult RestService (Model α) ρ).outcome
      = Outcome.fail (s.handleError e) ∧
    (s.deleteOne i o p (TransportResult.err e) : CallResult RestService Unit ρ).outcome
      = Outcome.fail (s.handleError e) ∧
    ((mkRestService n1 h1 bp1).query o p (TransportResult.err e)
      : CallResult RestService Unit ρ).outcome = Outcome.fail (h1 e) ∧
    ((mkRestService n2 h2 bp2).query o p (TransportResult.err e)
      : CallResult RestService Unit ρ).outcome = Outcome.fail (h2 e) := by
  refine ⟨rfl, rfl, rfl, rfl, rfl, rfl, rfl, rfl, rfl, rfl, rfl, rfl⟩

/-- C8: no operation mutates the instance: the final state of every base
verb and resource operation is the very instance it was invoked on (so in
particular the transport reference, the private headers object and the
base path survive unchanged), and a call performed after any other call is
the same as the call performed on the fresh instance — no call depends on
a previous one. -/
theorem operations_are_stateless {α ρ : Type} (b : BaseService)
    (s : RestService) (u : String) (m m2 : Model α)
    (o o2 : Option HttpOptions) (i : Option Int) (p p2 : Option String)
    (a a2 : TransportResult ρ) :
    (b.get u o a).finalState = b ∧
    (b.post u m o a).finalState = b ∧
    (b.put u m o a).finalState = b ∧
    (b.delete u o a).finalState = b ∧
    (s.query o p a).finalState = s ∧
    (s.getAll p a).finalState = s ∧
    (s.getOne i o p a).finalState = s ∧
    (s.createOne m o p a).finalState = s ∧
    (s.updateOne m o p a).finalState = s ∧
    (s.deleteOne i o p a).finalState = s ∧
    (s.updateOne m o p a).finalState.http = s.http ∧
    (s.updateOne m o p a).finalState.headers = s.headers ∧
    (s.updateOne m o p a).finalState.baseUrlPath = s.baseUrlPath ∧
    ((s.createOne m o p a).finalState.query o2 p2 a2 : CallResult RestService Unit ρ)
      = s.query o2 p2 a2 ∧
    ((s.updateOne m o p a).finalState.deleteOne i o2 p2 a2
      : CallResult RestService Unit ρ) = s.deleteOne i o2 p2 a2 ∧
    ((s.deleteOne i o p a).finalState.updateOne m2 o2 p2 a2
      : CallResult RestService (Model α) ρ) = s.updateOne m2 o2 p2 a2 ∧
    ((s.query o p a).finalState.getOne i o2 p2 a2 : CallResult RestService Unit ρ)
      = s.getOne i o2 p2 a2 := by
  refine ⟨rfl, rfl, rfl, rfl, rfl, rfl, rfl, rfl, rfl, rfl, rfl, rfl, rfl,
    rfl, rfl, rfl, rfl⟩

/-- C9: when the transport succeeds with `v`, each base verb delivers
exactly `v` to the caller: the `map` stage of the pipe is the identity and
transforms nothing. -/
theorem base_verbs_success_identity {β ρ : Type} (b : BaseService)
    (u : String) (body : β) (o : Option HttpOptions) (v : ρ) :
    (b.get u o (TransportResult.ok v)).outcome = Outcome.ok v ∧
    (b.post u body o (TransportResult.ok v)).outcome = Outcome.ok v ∧
    (b.put u body o (TransportResult.ok v)).outcome = Outcome.ok v ∧
    (b.delete u o (TransportResult.ok v)).outcome = Outcome.ok v ∧
    pipeMapCatch (ρ := ρ) b.handleError (TransportResult.ok v) = Outcome.ok v := by
  refine ⟨rfl, rfl, rfl, rfl, rfl⟩

/-- C10: `updateOne(m, options, path)` always sends `m` itself, unchanged,
as the PUT body — both when `m.id` is defined (and appended to the URL)
and when it is undefined. -/
theorem updateOne_body_is_model {α ρ : Type} (s : RestService) (m : Model α)
    (x : α) (i : Int) (o : Option HttpOptions) (p : Option String)
    (a : TransportResult ρ) :
    (s.updateOne m o p a).request.body = some m ∧
    (s.updateOne (Model.mk (some i) x) o p a).request.body
      = some (Model.mk (some i) x) ∧
    (s.updateOne (Model.mk (some i) x) o p a).request.url
      = effectivePath s p ++ ("/" ++ toString i) ∧
    (s.updateOne (Model.mk none x) o p a).request.body
      = some (Model.mk none x) ∧
    (s.updateOne (Model.mk none x) o p a).request.url = effectivePath s p := by
  refine ⟨?_, ?_, ?_, ?_, ?_⟩ <;> cases p <;> cases o <;>
    simp [RestService.updateOne, effectivePath]

end NgxRestful
